import Mathlib

/-!
Verification of the search-panel component of the nextjs-fastapi-starter
repository (components/MiddlePanel.tsx) against its natural-language
specification.

The component logic is a single-threaded, event-driven request/render
cycle.  We embed it shallowly: the React state hooks become fields of a
`UIState` record, each handler becomes a pure state-transformer, and the
outcome of an HTTP round trip (which arrives in a `then`/`catch`
callback) becomes an explicit `FetchResult` argument.  The client-side
random shuffle `data.sort(() => Math.random() - 0.5)` is modelled by an
explicit `shuffle` function supplied by the environment; where a claim
needs it, we assume the shuffle returns a permutation of its input,
which is what a JavaScript `Array.prototype.sort` with any comparator
guarantees.
-/

/-- `type Talk = { title: string; url: string; sdg_tags: string[] }`. -/
structure Talk where
  title : String
  url : String
  sdg_tags : List String
deriving DecidableEq, Repr

/-- The component state: one field per `useState`/`useRef` hook of
`MiddlePanel` (plus `talks`, which lives in the shared TalkContext but is
read and written only by this component). -/
structure UIState where
  query : String
  talks : List Talk
  selectedTalk : Option Talk
  loading : Bool
  error : Option String
  errorDetails : String
  logs : List String
  greeting : String
  initialKeyword : String
deriving DecidableEq, Repr

/-- The state at component mount: every hook starts at its initial value
(`useRef<string>("")` for the initial keyword, empty/false/null for the
rest). -/
def mountState : UIState :=
  { query := ""
    talks := []
    selectedTalk := none
    loading := false
    error := none
    errorDetails := ""
    logs := []
    greeting := ""
    initialKeyword := "" }

/-- `addLog`: appends one message to the `logs` state. -/
def addLog (st : UIState) (message : String) : UIState :=
  { st with logs := st.logs ++ [message] }

/-- Outcome of one axios round trip as seen by the handlers: either the
promise resolved with a response (status, statusText, parsed body) or it
rejected with an error message. -/
inductive FetchResult where
  | resolved (status : Nat) (statusText : String) (data : List Talk)
  | rejected (message : String)
deriving Repr

/-- Body of the `then` handler of `performSearch` on the 200 path, applied to
the already-shuffled data `d`: `setTalks(data)`, log the count, then
select `data[0]` and log it when non-empty, else select null. -/
def searchSuccess (st : UIState) (d : List Talk) : UIState :=
  let st1 := { st with talks := d }
  let st2 := addLog st1 ("Search results retrieved: " ++ toString d.length ++ " talks found.")
  match d with
  | [] => { st2 with selectedTalk := none }
  | t :: _ => addLog { st2 with selectedTalk := some t } ("For example: " ++ t.title)

/-- The `catch` handler of `performSearch`: fixed user-facing error, the
underlying error text in `errorDetails`, one log entry. -/
def searchCatch (st : UIState) (message : String) : UIState :=
  addLog
    { st with
      error := some "Failed to fetch data. Please check if the backend server is running."
      errorDetails := message }
    ("Failed to fetch data: " ++ message)

/-- `performSearch(searchQuery)`: sets loading, clears error, then runs
the `then` handler (which on a non-200 status logs and throws into the
`catch`) or the `catch` handler, and finally clears loading.  The
`searchQuery` argument only feeds the request URL, never the state; the
`shuffle` argument stands for the random in-place sort of the response
list; the `fetch` argument is the round trip outcome. -/
def performSearch (shuffle : List Talk → List Talk) (st : UIState)
    (searchQuery : String) (fetch : FetchResult) : UIState :=
  let st0 := { st with loading := true, error := none }
  let st1 :=
    match fetch with
    | .resolved status statusText data =>
      if status = 200 then
        searchSuccess st0 (shuffle data)
      else
        searchCatch
          (addLog st0 ("Search failed. Status: " ++ toString status ++ " - " ++ statusText))
          ("Error: " ++ toString status ++ " - " ++ statusText)
    | .rejected message => searchCatch st0 message
  { st1 with loading := false }

/-- The result-item `onClick` handler (the spec calls it
`selectResult`): `setSelectedTalk(talk)` then scroll to top (no state). -/
def selectResult (st : UIState) (talk : Talk) : UIState :=
  { st with selectedTalk := some talk }

/-- The 17 fixed topic keywords of `determineInitialKeyword`, in source
order. -/
def topicKeywords : List String :=
  ["poverty", "hunger", "health", "education", "gender", "water", "energy",
   "work", "industry", "inequality", "city", "consumption", "climate",
   "ocean", "land", "peace", "partnership"]

/-- `determineInitialKeyword`: `Math.floor(Math.random() * 18)` draws a
number in `0..17` (hence the `Fin 18` argument); draw 0 yields the
alternate keyword, draw `n ≥ 1` yields the topic keyword at index
`n - 1`. -/
def determineInitialKeyword (randomNumber : Fin 18) : String :=
  if h : (randomNumber : Nat) = 0 then "TED AI"
  else
    topicKeywords.get
      ⟨(randomNumber : Nat) - 1, by
        have hl : topicKeywords.length = 17 := rfl
        have hr := randomNumber.isLt
        omega⟩

/-- The `useEffect` guarded by the `initialKeyword` ref: when the ref is
still empty, fill it with a fresh random keyword, copy it into `query`,
and run `performSearch` with it; otherwise do nothing.  Returns the new
state together with whether a search was invoked. -/
def initialKeywordEffect (randomNumber : Fin 18)
    (shuffle : List Talk → List Talk) (fetch : FetchResult)
    (st : UIState) : UIState × Bool :=
  if st.initialKeyword = "" then
    let kw := determineInitialKeyword randomNumber
    (performSearch shuffle { st with initialKeyword := kw, query := kw } kw fetch, true)
  else
    (st, false)

/-- Run a sequence of invocations of the initial-keyword effect (one per
render that re-fires it), threading the state and counting how many of
them invoked a search. -/
def runInitialEffects (invocations : List (Fin 18 × FetchResult))
    (st : UIState) : UIState × Nat :=
  match invocations with
  | [] => (st, 0)
  | (r, f) :: rest =>
    let p := initialKeywordEffect r (fun l => l) f st
    let q := runInitialEffects rest p.1
    (q.1, (if p.2 then 1 else 0) + q.2)

/-- The greeting response body as the handler inspects it:
`greetingResponse.data` may be absent/falsy (`none` at the outer level),
and `data.message` may be an absent field (`none` at the inner level) or
a string (possibly empty, which JavaScript treats as falsy). -/
structure GreetingData where
  message : Option String
deriving DecidableEq, Repr

/-- Outcome of the greeting round trip. -/
inductive GreetingResult where
  | resolved (data : Option GreetingData)
  | rejected (message : String)
deriving Repr

/-- The greeting `useEffect` handlers: on resolution, store
`data.message` when `data && data.message` is truthy (a present,
non-empty string), else store the fixed fallback; on rejection, store
the fixed failure string, keep the error text, and log it. -/
def handleGreeting (st : UIState) (resp : GreetingResult) : UIState :=
  match resp with
  | .resolved data =>
    match data with
    | some gd =>
      match gd.message with
      | some m =>
        if m = "" then { st with greeting := "Unknown response format" }
        else { st with greeting := m }
      | none => { st with greeting := "Unknown response format" }
    | none => { st with greeting := "Unknown response format" }
  | .rejected message =>
    addLog
      { st with greeting := "Failed to load greeting.", errorDetails := message }
      ("Failed to fetch greeting: " ++ message)

/-- A word character of the regex `[\w_]+` (ASCII letters, digits,
underscore — the `\w` class without the unicode flag). -/
def isWordChar (c : Char) : Bool :=
  c.isAlphanum || c = '_'

/-- The literal part of the regex
`/https:\/\/www\.ted\.com\/talks\/([\w_]+)/`. -/
def tedLiteral : List Char :=
  String.toList "https://www.ted.com/talks/"

/-- Whether `p` is an initial segment of `s` (character-exact). -/
def startsWithChars : List Char → List Char → Bool
  | [], _ => true
  | _ :: _, [] => false
  | p :: ps, c :: cs => p = c && startsWithChars ps cs

/-- Try the regex at the start of `s`: the literal followed by at least
one word character; the capture group is the maximal word-character run
(greedy `[\w_]+`). -/
def tedMatchAt (s : List Char) : Option (List Char) :=
  if startsWithChars tedLiteral s then
    let capture := (s.drop tedLiteral.length).takeWhile isWordChar
    if capture = [] then none else some capture
  else none

/-- `url.match(tedRegex)` restricted to the capture group: the leftmost
position where the regex matches wins, as in JavaScript `String.match`
without the global flag. -/
def findTedMatch : List Char → Option (List Char)
  | [] => none
  | c :: rest =>
    match tedMatchAt (c :: rest) with
    | some capture => some capture
    | none => findTedMatch rest

/-- `generateEmbedUrl` on its TypeScript domain `string | undefined`
(`none` is `undefined`): nullish input degrades to `""` via `url ?? ""`;
a string is rewritten to the embed URL when the regex matches, else
returned unchanged.  (An empty string is falsy, so it takes the guard
branch, but `"" ?? ""` is still `""`.) -/
def generateEmbedUrl (url : Option String) : String :=
  match url with
  | none => ""
  | some s =>
    match findTedMatch s.toList with
    | some capture =>
      "https://embed.ted.com/talks/" ++ String.mk capture ++ "?subtitle=en"
    | none => s

/-- A JavaScript value, for the dynamic (untyped) view of
`generateEmbedUrl`; numbers are restricted to the integers, on which
JavaScript arithmetic and truthiness are exact. -/
inductive JSValue where
  | undef
  | nullV
  | boolV (b : Bool)
  | numV (n : Int)
  | strV (s : String)
deriving DecidableEq, Repr

/-- JavaScript truthiness on `JSValue`. -/
def jsTruthy : JSValue → Bool
  | .undef => false
  | .nullV => false
  | .boolV b => b
  | .numV n => n != 0
  | .strV s => s != ""

/-- Whether `v ?? d` picks the default: `undefined` and `null` only. -/
def jsNullish : JSValue → Bool
  | .undef => true
  | .nullV => true
  | _ => false

/-- `typeof v === "string"`. -/
def jsIsString : JSValue → Bool
  | .strV _ => true
  | _ => false

/-- `generateEmbedUrl` under JavaScript dynamic semantics: the body is
`if (!url || typeof url !== "string") return url ?? "";` followed by the
regex rewrite.  Note the guard returns `url ?? ""`, which is `""` only
for nullish inputs — any other non-string (or falsy-string) input is
returned as-is. -/
def generateEmbedUrlJS (url : JSValue) : JSValue :=
  if !jsTruthy url || !jsIsString url then
    if jsNullish url then .strV "" else url
  else
    match url with
    | .strV s =>
      match findTedMatch s.toList with
      | some capture =>
        .strV ("https://embed.ted.com/talks/" ++ String.mk capture ++ "?subtitle=en")
      | none => .strV s
    | v => v

/-! ## Helper lemmas -/

theorem startsWithChars_self_append (p r : List Char) :
    startsWithChars p (p ++ r) = true := by
  induction p with
  | nil => rfl
  | cons c cs ih => simp [startsWithChars, ih]

theorem tedMatchAt_literal (name : List Char) (hne : name ≠ [])
    (hw : ∀ c ∈ name, isWordChar c) :
    tedMatchAt (tedLiteral ++ name) = some name := by
  have h1 : startsWithChars tedLiteral (tedLiteral ++ name) = true :=
    startsWithChars_self_append _ _
  have h2 : (tedLiteral ++ name).drop tedLiteral.length = name :=
    List.drop_left _ _
  have h3 : name.takeWhile isWordChar = name :=
    List.takeWhile_eq_self_iff.mpr hw
  simp [tedMatchAt, h1, h2, h3, hne]

theorem findTedMatch_cons (c : Char) (rest : List Char) :
    findTedMatch (c :: rest) =
      match tedMatchAt (c :: rest) with
      | some capture => some capture
      | none => findTedMatch rest := rfl

theorem findTedMatch_literal (name : List Char) (hne : name ≠ [])
    (hw : ∀ c ∈ name, isWordChar c) :
    findTedMatch (tedLiteral ++ name) = some name := by
  have hcons : tedLiteral ++ name = 'h' :: (tedLiteral.tail ++ name) := rfl
  have hmatch := tedMatchAt_literal name hne hw
  rw [hcons] at hmatch ⊢
  rw [findTedMatch_cons, hmatch]

/-! ## C3: loading is false after every completed search -/

/-- C3.  For every query string and every round-trip outcome, a
completed `performSearch` leaves the loading flag false, on the success
branch and on the failure branch alike: the `finally` reset runs
unconditionally. -/
theorem performSearch_loading_false (shuffle : List Talk → List Talk)
    (st : UIState) (searchQuery : String) (fetch : FetchResult) :
    (performSearch shuffle st searchQuery fetch).loading = false := rfl

/-! ## C7: the initial-keyword chooser is uniform over 18 keywords -/

/-- C7.  The initial-keyword chooser maps the 18 equiprobable draws
`0..17` exactly onto the alternate keyword followed by the 17 topic
keywords; these 18 keywords are pairwise distinct, so under a uniform
draw each keyword (the alternate included) has probability exactly 1/18;
draw 0 maps to the alternate keyword. -/
theorem determineInitialKeyword_uniform :
    (List.finRange 18).map determineInitialKeyword = "TED AI" :: topicKeywords ∧
    ("TED AI" :: topicKeywords).Nodup ∧
    determineInitialKeyword 0 = "TED AI" ∧
    ("TED AI" :: topicKeywords).map
        (fun k => (List.finRange 18).countP (fun r => determineInitialKeyword r = k)) =
      List.replicate 18 1 := by
  refine ⟨by decide, by decide, by decide, by decide⟩

/-! ## C8: selecting a result -/

/-- C8.  For every item of the current results list, the result-item
click handler sets the selected talk to exactly that item and leaves the
results list unchanged. -/
theorem selectResult_spec (st : UIState) (talk : Talk)
    (hmem : talk ∈ st.talks) :
    (selectResult st talk).selectedTalk = some talk ∧
    (selectResult st talk).talks = st.talks :=
  ⟨rfl, rfl⟩

/-- Witness for C8 at a concrete state and item. -/
theorem selectResult_spec_witness :
    (selectResult { mountState with talks := [⟨"T", "u", []⟩] } ⟨"T", "u", []⟩).selectedTalk =
        some ⟨"T", "u", []⟩ ∧
    (selectResult { mountState with talks := [⟨"T", "u", []⟩] } ⟨"T", "u", []⟩).talks =
        [⟨"T", "u", []⟩] :=
  selectResult_spec { mountState with talks := [⟨"T", "u", []⟩] } ⟨"T", "u", []⟩
    (by decide)

/-! ## C4: the embed-URL rewrite -/

/-- C4.  `generateEmbedUrl` is pure and: (i) on every string of the
exact form `https://www.ted.com/talks/<name>` with `<name>` a non-empty
run of word characters, it returns
`https://embed.ted.com/talks/<name>?subtitle=en`; (ii) on every string
the regex matches nowhere, it returns the input unchanged; (iii) on
`undefined` it returns the empty string. -/
theorem generateEmbedUrl_spec :
    (∀ name : String, name.toList ≠ [] → (∀ c ∈ name.toList, isWordChar c) →
      generateEmbedUrl (some ("https://www.ted.com/talks/" ++ name)) =
        "https://embed.ted.com/talks/" ++ name ++ "?subtitle=en") ∧
    (∀ url : String, findTedMatch url.toList = none →
      generateEmbedUrl (some url) = url) ∧
    generateEmbedUrl none = "" := by
  refine ⟨fun name hne hw => ?_, fun url hnone => ?_, rfl⟩
  · have hlist : ("https://www.ted.com/talks/" ++ name).toList =
        tedLiteral ++ name.toList := by
      simp [String.toList, tedLiteral, String.data_append]
    have hfound := findTedMatch_literal name.toList hne hw
    simp only [generateEmbedUrl, hlist, hfound]
    rfl
  · have hnone' : findTedMatch url.data = none := hnone
    simp [generateEmbedUrl, hnone']

/-- Witness for C4 at concrete inputs: a matching talk URL and a
non-matching string. -/
theorem generateEmbedUrl_spec_witness :
    generateEmbedUrl (some ("https://www.ted.com/talks/" ++ "some_talk_name")) =
      "https://embed.ted.com/talks/" ++ "some_talk_name" ++ "?subtitle=en" ∧
    generateEmbedUrl (some "hello") = "hello" :=
  ⟨generateEmbedUrl_spec.1 "some_talk_name" (by decide) (by decide),
   generateEmbedUrl_spec.2.1 "hello" (by decide)⟩

/-! ## C5: missing or non-string inputs -/

/-- C5 counterexample.  The claim says every non-string input yields the
empty string; but on the non-string input `true` the guard returns
`url ?? ""`, which is `true` itself, not `""`. -/
theorem generateEmbedUrl_nonString_counterexample :
    ¬ (generateEmbedUrlJS (JSValue.boolV true) = JSValue.strV "") := by decide

/-- C5 as amended.  For every missing (undefined/null) input the
function returns the empty string; every other non-string input is
returned unchanged; in all these cases the guard returns immediately,
so the function never throws (it is total in this embedding). -/
theorem generateEmbedUrl_nonString (v : JSValue) (hns : jsIsString v = false) :
    generateEmbedUrlJS v = (if jsNullish v then JSValue.strV "" else v) := by
  cases v <;> simp_all [generateEmbedUrlJS, jsTruthy, jsIsString, jsNullish]

/-- Witness for C5 (amended) at the concrete input `undefined`. -/
theorem generateEmbedUrl_nonString_witness :
    generateEmbedUrlJS JSValue.undef = JSValue.strV "" := by
  have h := generateEmbedUrl_nonString JSValue.undef (by decide)
  simpa using h

/-! ## C1: the success branch of a search -/

/-- C1 counterexample.  On a 200 response with one parsed talk, the
success branch appends two log entries (the result count and the sample
title), not one, so the claim as stated fails. -/
theorem performSearch_success_one_log_refuted :
    ¬ ((performSearch (fun l => l) mountState "ai"
          (FetchResult.resolved 200 "OK" [⟨"T", "u", []⟩])).logs.length =
        mountState.logs.length + 1) := by decide

/-- C1 as amended.  On a 200 response the results are replaced by the
shuffled (hence a permutation of the) parsed list, so the stored length
equals the parsed length; the selected talk becomes the head of the
stored list (`none` when it is empty); and one log entry is appended
when the parsed list is empty, two when it is non-empty. -/
theorem performSearch_success_spec (shuffle : List Talk → List Talk)
    (st : UIState) (searchQuery statusText : String) (data : List Talk)
    (hperm : (shuffle data).Perm data) :
    (performSearch shuffle st searchQuery (.resolved 200 statusText data)).talks.Perm data ∧
    (performSearch shuffle st searchQuery (.resolved 200 statusText data)).talks.length =
      data.length ∧
    (performSearch shuffle st searchQuery (.resolved 200 statusText data)).selectedTalk =
      (performSearch shuffle st searchQuery (.resolved 200 statusText data)).talks.head? ∧
    (performSearch shuffle st searchQuery (.resolved 200 statusText data)).logs.length =
      st.logs.length + (if data.length = 0 then 1 else 2) := by
  have hps : performSearch shuffle st searchQuery (.resolved 200 statusText data) =
      { searchSuccess { st with loading := true, error := none } (shuffle data) with
        loading := false } := by
    simp [performSearch]
  rw [hps]
  cases hd : shuffle data with
  | nil =>
    have hdata : data = [] := List.nil_perm.mp (hd ▸ hperm)
    subst hdata
    simp [searchSuccess, addLog]
  | cons t ts =>
    have hperm' : (t :: ts).Perm data := hd ▸ hperm
    have hlen : data.length = ts.length + 1 := by
      simpa using hperm'.length_eq.symm
    refine ⟨by simpa [searchSuccess, addLog] using hperm', ?_, ?_, ?_⟩
    · simp [searchSuccess, addLog, hlen]
    · simp [searchSuccess, addLog]
    · simp [searchSuccess, addLog, hlen]

/-- Witness for C1 (amended) on a concrete 200 response carrying one
talk, with the identity shuffle. -/
theorem performSearch_success_spec_witness :
    (performSearch (fun l => l) mountState "climate"
        (FetchResult.resolved 200 "OK" [⟨"A", "v", []⟩])).talks.Perm [⟨"A", "v", []⟩] ∧
    (performSearch (fun l => l) mountState "climate"
        (FetchResult.resolved 200 "OK" [⟨"A", "v", []⟩])).talks.length =
      List.length ([⟨"A", "v", []⟩] : List Talk) ∧
    (performSearch (fun l => l) mountState "climate"
        (FetchResult.resolved 200 "OK" [⟨"A", "v", []⟩])).selectedTalk =
      (performSearch (fun l => l) mountState "climate"
        (FetchResult.resolved 200 "OK" [⟨"A", "v", []⟩])).talks.head? ∧
    (performSearch (fun l => l) mountState "climate"
        (FetchResult.resolved 200 "OK" [⟨"A", "v", []⟩])).logs.length =
      mountState.logs.length +
        (if List.length ([⟨"A", "v", []⟩] : List Talk) = 0 then 1 else 2) :=
  performSearch_success_spec (fun l => l) mountState "climate" "OK"
    [⟨"A", "v", []⟩] (List.Perm.refl _)

/-! ## C2: the failure branch of a search -/

/-- C2 counterexample.  A resolved non-200 response (here 201) logs once
in the `then` handler before throwing and once more in the `catch`
handler, so two log entries are appended, not one. -/
theorem performSearch_failure_one_log_refuted :
    ¬ ((performSearch (fun l => l) mountState "energy"
          (FetchResult.resolved 201 "Created" [])).logs.length =
        mountState.logs.length + 1) := by decide

/-- C2 as amended.  On failure the error state is set to the fixed
user-facing message and the underlying error text is kept in
`errorDetails`; the results list is exactly what it was before the
call; and the log grows by two entries on a resolved non-200 response
(the status log plus the catch log) and by one entry on a transport
failure. -/
theorem performSearch_failure_spec (shuffle : List Talk → List Talk)
    (st : UIState) (searchQuery statusText message : String)
    (status : Nat) (data : List Talk) (hstatus : status ≠ 200) :
    ((performSearch shuffle st searchQuery (.resolved status statusText data)).error =
        some "Failed to fetch data. Please check if the backend server is running." ∧
     (performSearch shuffle st searchQuery (.resolved status statusText data)).errorDetails =
        "Error: " ++ toString status ++ " - " ++ statusText ∧
     (performSearch shuffle st searchQuery (.resolved status statusText data)).talks =
        st.talks ∧
     (performSearch shuffle st searchQuery (.resolved status statusText data)).logs =
        st.logs ++ ["Search failed. Status: " ++ toString status ++ " - " ++ statusText,
          "Failed to fetch data: " ++ ("Error: " ++ toString status ++ " - " ++ statusText)]) ∧
    ((performSearch shuffle st searchQuery (.rejected message)).error =
        some "Failed to fetch data. Please check if the backend server is running." ∧
     (performSearch shuffle st searchQuery (.rejected message)).errorDetails = message ∧
     (performSearch shuffle st searchQuery (.rejected message)).talks = st.talks ∧
     (performSearch shuffle st searchQuery (.rejected message)).logs =
        st.logs ++ ["Failed to fetch data: " ++ message]) := by
  constructor
  · simp [performSearch, hstatus, searchCatch, addLog]
  · simp [performSearch, searchCatch, addLog]

/-- Witness for C2 (amended) on a concrete resolved 201 response and a
concrete transport failure, from the mount state. -/
theorem performSearch_failure_spec_witness :
    ((performSearch (fun l => l) mountState "water"
        (FetchResult.resolved 201 "Created" [])).error =
        some "Failed to fetch data. Please check if the backend server is running." ∧
     (performSearch (fun l => l) mountState "water"
        (FetchResult.resolved 201 "Created" [])).errorDetails =
        "Error: " ++ toString 201 ++ " - " ++ "Created" ∧
     (performSearch (fun l => l) mountState "water"
        (FetchResult.resolved 201 "Created" [])).talks = mountState.talks ∧
     (performSearch (fun l => l) mountState "water"
        (FetchResult.resolved 201 "Created" [])).logs =
        mountState.logs ++
          ["Search failed. Status: " ++ toString 201 ++ " - " ++ "Created",
           "Failed to fetch data: " ++ ("Error: " ++ toString 201 ++ " - " ++ "Created")]) ∧
    ((performSearch (fun l => l) mountState "water"
        (FetchResult.rejected "Network Error")).error =
        some "Failed to fetch data. Please check if the backend server is running." ∧
     (performSearch (fun l => l) mountState "water"
        (FetchResult.rejected "Network Error")).errorDetails = "Network Error" ∧
     (performSearch (fun l => l) mountState "water"
        (FetchResult.rejected "Network Error")).talks = mountState.talks ∧
     (performSearch (fun l => l) mountState "water"
        (FetchResult.rejected "Network Error")).logs =
        mountState.logs ++ ["Failed to fetch data: " ++ "Network Error"]) :=
  performSearch_failure_spec (fun l => l) mountState "water" "Created"
    "Network Error" 201 [] (by decide)

/-! ## C9: the greeting fetch -/

/-- C9 counterexample.  A response body that contains the `message`
field holding the empty string fails the truthiness test
`data && data.message`, so the greeting is set to the fallback string,
not to the (empty) message the claim demands. -/
theorem handleGreeting_message_refuted :
    ¬ ((handleGreeting mountState
          (GreetingResult.resolved (some ⟨some ""⟩))).greeting = "") := by decide

/-- C9 as amended.  A body carrying a non-empty `message` string sets
the greeting to that message; a body whose `message` is empty or absent,
or a falsy body, sets the fixed fallback string; a transport failure
sets the fixed failure string, keeps the error text in `errorDetails`,
and logs it. -/
theorem handleGreeting_spec (st : UIState) (gd : GreetingData)
    (m message : String) :
    (gd.message = some m → m ≠ "" →
      (handleGreeting st (.resolved (some gd))).greeting = m) ∧
    (gd.message = some "" →
      (handleGreeting st (.resolved (some gd))).greeting = "Unknown response format") ∧
    (gd.message = none →
      (handleGreeting st (.resolved (some gd))).greeting = "Unknown response format") ∧
    (handleGreeting st (.resolved none)).greeting = "Unknown response format" ∧
    ((handleGreeting st (.rejected message)).greeting = "Failed to load greeting." ∧
     (handleGreeting st (.rejected message)).errorDetails = message ∧
     (handleGreeting st (.rejected message)).logs =
        st.logs ++ ["Failed to fetch greeting: " ++ message]) := by
  refine ⟨fun hm hne => ?_, fun hm => ?_, fun hm => ?_, rfl, rfl, rfl, ?_⟩
  · simp [handleGreeting, hm, hne]
  · simp [handleGreeting, hm]
  · simp [handleGreeting, hm]
  · simp [handleGreeting, addLog]

/-- Witness for C9 (amended): each branch of the amended claim applied
at a concrete body (non-empty message, empty message, absent field) and
a concrete transport failure, with every hypothesis discharged. -/
theorem handleGreeting_spec_witness :
    (handleGreeting mountState
        (.resolved (some ⟨some "Hello from FastAPI"⟩))).greeting = "Hello from FastAPI" ∧
    (handleGreeting mountState
        (.resolved (some ⟨some ""⟩))).greeting = "Unknown response format" ∧
    (handleGreeting mountState
        (.resolved (some ⟨none⟩))).greeting = "Unknown response format" ∧
    (handleGreeting mountState (.resolved none)).greeting = "Unknown response format" ∧
    (handleGreeting mountState (.rejected "socket hang up")).greeting =
        "Failed to load greeting." ∧
    (handleGreeting mountState (.rejected "socket hang up")).errorDetails =
        "socket hang up" ∧
    (handleGreeting mountState (.rejected "socket hang up")).logs =
        mountState.logs ++ ["Failed to fetch greeting: " ++ "socket hang up"] :=
  ⟨(handleGreeting_spec mountState ⟨some "Hello from FastAPI"⟩
      "Hello from FastAPI" "socket hang up").1 rfl (by decide),
   (handleGreeting_spec mountState ⟨some ""⟩ "" "socket hang up").2.1 rfl,
   (handleGreeting_spec mountState ⟨none⟩ "" "socket hang up").2.2.1 rfl,
   (handleGreeting_spec mountState ⟨none⟩ "" "socket hang up").2.2.2.1,
   (handleGreeting_spec mountState ⟨none⟩ "" "socket hang up").2.2.2.2.1,
   (handleGreeting_spec mountState ⟨none⟩ "" "socket hang up").2.2.2.2.2.1,
   (handleGreeting_spec mountState ⟨none⟩ "" "socket hang up").2.2.2.2.2.2⟩

/-! ## C6: the initial search fires exactly once -/

theorem determineInitialKeyword_ne_empty (r : Fin 18) :
    determineInitialKeyword r ≠ "" := by
  revert r
  decide

theorem searchSuccess_initialKeyword (st : UIState) (d : List Talk) :
    (searchSuccess st d).initialKeyword = st.initialKeyword := by
  cases d <;> rfl

theorem performSearch_initialKeyword (shuffle : List Talk → List Talk)
    (st : UIState) (searchQuery : String) (fetch : FetchResult) :
    (performSearch shuffle st searchQuery fetch).initialKeyword = st.initialKeyword := by
  cases fetch with
  | resolved status statusText data =>
    by_cases h200 : status = 200
    · simp [performSearch, h200, searchSuccess_initialKeyword]
    · simp [performSearch, h200, searchCatch, addLog]
  | rejected message => rfl

theorem initialKeywordEffect_fires (r : Fin 18)
    (shuffle : List Talk → List Talk) (fetch : FetchResult)
    (st : UIState) (h : st.initialKeyword = "") :
    (initialKeywordEffect r shuffle fetch st).2 = true ∧
    (initialKeywordEffect r shuffle fetch st).1.initialKeyword =
      determineInitialKeyword r := by
  simp [initialKeywordEffect, h, performSearch_initialKeyword]

theorem initialKeywordEffect_skips (r : Fin 18)
    (shuffle : List Talk → List Talk) (fetch : FetchResult)
    (st : UIState) (h : st.initialKeyword ≠ "") :
    initialKeywordEffect r shuffle fetch st = (st, false) := by
  simp [initialKeywordEffect, h]

theorem runInitialEffects_of_set (invocations : List (Fin 18 × FetchResult))
    (st : UIState) (h : st.initialKeyword ≠ "") :
    runInitialEffects invocations st = (st, 0) := by
  induction invocations with
  | nil => rfl
  | cons p rest ih =>
    obtain ⟨r, f⟩ := p
    simp [runInitialEffects, initialKeywordEffect_skips r (fun l => l) f st h, ih]

/-- C6.  From any freshly mounted state (empty initial-keyword ref),
every non-empty sequence of runs of the initial-keyword effect invokes
the automatic search exactly once: the first run fills the ref (the
chosen keyword is never empty, and `performSearch` never writes the
ref), and the guard blocks every later run. -/
theorem initialSearch_once (st : UIState) (h : st.initialKeyword = "")
    (invocations : List (Fin 18 × FetchResult)) (hne : invocations ≠ []) :
    (runInitialEffects invocations st).2 = 1 := by
  cases invocations with
  | nil => exact absurd rfl hne
  | cons p rest =>
    obtain ⟨r, f⟩ := p
    have hf := initialKeywordEffect_fires r (fun l => l) f st h
    have hset : (initialKeywordEffect r (fun l => l) f st).1.initialKeyword ≠ "" := by
      rw [hf.2]
      exact determineInitialKeyword_ne_empty r
    have hrest := runInitialEffects_of_set rest _ hset
    simp [runInitialEffects, hf.1, hrest]

/-- Witness for C6: two consecutive effect runs from the mount state
(the second standing for a re-render) still invoke exactly one search. -/
theorem initialSearch_once_witness :
    (runInitialEffects
      [((0 : Fin 18), FetchResult.rejected "down"),
       ((3 : Fin 18), FetchResult.rejected "down")] mountState).2 = 1 :=
  initialSearch_once mountState rfl _ (List.cons_ne_nil _ _)

/-! ## C10: the selected talk is always among the results -/

/-- One UI event as a state transition: a search completion (manual or
keypress), a result click (the UI only offers items of the current
results list), a greeting completion, a run of the initial-keyword
effect, a bare log append (the manual-search log line), or a keystroke
in the query box. -/
inductive Step : UIState → UIState → Prop where
  | search (st : UIState) (shuffle : List Talk → List Talk)
      (searchQuery : String) (fetch : FetchResult) :
      Step st (performSearch shuffle st searchQuery fetch)
  | select (st : UIState) (talk : Talk) (hmem : talk ∈ st.talks) :
      Step st (selectResult st talk)
  | greet (st : UIState) (resp : GreetingResult) :
      Step st (handleGreeting st resp)
  | initialEffect (st : UIState) (r : Fin 18)
      (shuffle : List Talk → List Talk) (fetch : FetchResult) :
      Step st (initialKeywordEffect r shuffle fetch st).1
  | logEntry (st : UIState) (message : String) :
      Step st (addLog st message)
  | setQuery (st : UIState) (text : String) :
      Step st { st with query := text }

/-- The states reachable from the mount state by UI events. -/
inductive Reachable : UIState → Prop where
  | mount : Reachable mountState
  | step {s s' : UIState} : Reachable s → Step s s' → Reachable s'

theorem searchSuccess_selected_mem (st : UIState) (d : List Talk) :
    ∀ t : Talk, (searchSuccess st d).selectedTalk = some t →
      t ∈ (searchSuccess st d).talks := by
  cases d with
  | nil =>
    intro t ht
    simp [searchSuccess, addLog] at ht
  | cons a as =>
    intro t ht
    simp [searchSuccess, addLog] at ht ⊢
    exact Or.inl ht.symm

theorem performSearch_selectedInTalks (shuffle : List Talk → List Talk)
    (st : UIState) (searchQuery : String) (fetch : FetchResult)
    (h : ∀ t : Talk, st.selectedTalk = some t → t ∈ st.talks) :
    ∀ t : Talk,
      (performSearch shuffle st searchQuery fetch).selectedTalk = some t →
        t ∈ (performSearch shuffle st searchQuery fetch).talks := by
  cases fetch with
  | resolved status statusText data =>
    by_cases h200 : status = 200
    · subst h200
      intro t ht
      have hps : performSearch shuffle st searchQuery (.resolved 200 statusText data) =
          { searchSuccess { st with loading := true, error := none } (shuffle data) with
            loading := false } := by
        simp [performSearch]
      rw [hps] at ht ⊢
      exact searchSuccess_selected_mem _ _ t ht
    · intro t ht
      have hsel : (performSearch shuffle st searchQuery
          (.resolved status statusText data)).selectedTalk = st.selectedTalk := by
        simp [performSearch, h200, searchCatch, addLog]
      have htalks : (performSearch shuffle st searchQuery
          (.resolved status statusText data)).talks = st.talks := by
        simp [performSearch, h200, searchCatch, addLog]
      rw [hsel] at ht
      rw [htalks]
      exact h t ht
  | rejected message =>
    intro t ht
    exact h t ht

theorem handleGreeting_selected_talks (st : UIState) (resp : GreetingResult) :
    (handleGreeting st resp).selectedTalk = st.selectedTalk ∧
    (handleGreeting st resp).talks = st.talks := by
  cases resp with
  | resolved data =>
    cases data with
    | none => exact ⟨rfl, rfl⟩
    | some gd =>
      cases hm : gd.message with
      | none => simp [handleGreeting, hm]
      | some m =>
        by_cases hms : m = "" <;> simp [handleGreeting, hm, hms]
  | rejected message => exact ⟨rfl, rfl⟩

theorem initialKeywordEffect_selectedInTalks (r : Fin 18)
    (shuffle : List Talk → List Talk) (fetch : FetchResult) (st : UIState)
    (h : ∀ t : Talk, st.selectedTalk = some t → t ∈ st.talks) :
    ∀ t : Talk,
      (initialKeywordEffect r shuffle fetch st).1.selectedTalk = some t →
        t ∈ (initialKeywordEffect r shuffle fetch st).1.talks := by
  by_cases hik : st.initialKeyword = ""
  · intro t ht
    simp only [initialKeywordEffect, hik, if_pos] at ht ⊢
    exact performSearch_selectedInTalks shuffle
      { st with
        initialKeyword := determineInitialKeyword r
        query := determineInitialKeyword r }
      (determineInitialKeyword r) fetch h t ht
  · intro t ht
    simp only [initialKeywordEffect, hik, if_neg, ite_false] at ht ⊢
    exact h t ht

/-- C10.  In every state reachable from mount by any sequence of UI
events (searches, result clicks, greeting completions, effect runs,
log appends, keystrokes), the selected talk is either `none` or an
element of the current results list. -/
theorem selected_mem_talks (st : UIState) (h : Reachable st) :
    ∀ t : Talk, st.selectedTalk = some t → t ∈ st.talks := by
  induction h with
  | mount =>
    intro t ht
    simp [mountState] at ht
  | @step s s' hr hs ih =>
    cases hs with
    | search shuffle searchQuery fetch =>
      exact performSearch_selectedInTalks shuffle s searchQuery fetch ih
    | select talk hmem =>
      intro t ht
      have htalk : talk = t := Option.some.inj ht
      exact htalk ▸ hmem
    | greet resp =>
      intro t ht
      have hl := handleGreeting_selected_talks s resp
      rw [hl.1] at ht
      rw [hl.2]
      exact ih t ht
    | initialEffect r shuffle fetch =>
      exact initialKeywordEffect_selectedInTalks r shuffle fetch s ih
    | logEntry message => exact ih
    | setQuery text => exact ih

/-- Witness for C10 at a concrete reachable state: after one successful
search from the mount state, the selected talk is indeed in the results
list. -/
theorem selected_mem_talks_witness :
    (⟨"T", "u", []⟩ : Talk) ∈
      (performSearch (fun l => l) mountState "peace"
        (FetchResult.resolved 200 "OK" [⟨"T", "u", []⟩])).talks :=
  selected_mem_talks _
    (Reachable.step Reachable.mount
      (Step.search mountState (fun l => l) "peace"
        (FetchResult.resolved 200 "OK" [⟨"T", "u", []⟩])))
    ⟨"T", "u", []⟩ (by decide)
